import Mathlib
/-!
Shallow embedding of the pod health diagnostic pipeline of `k8s-ai-monitor`:
the per-pod issue classifier and detector (`src/monitor/pods.py`,
`src/k8s/monitor.py`), the LLM analysis clients (`src/llm/processor.py`,
`src/ai/claude.py`) and their response parsing.  Machine-level concerns
(HTTP, the Kubernetes client) are modelled as explicit environments whose
fallible calls return `Except`; Python exceptions that the source catches
become `Except.error` values handled exactly where the source catches them.
-/

/-- One container status of a pod, as read from
`pod.status.container_statuses`: the container name, the waiting reason when
the container is in a waiting state, the pair (exit code, reason) when it is
terminated, and the restart count.  Mirrors the fields the source reads. -/
structure ContainerStatus where
  name : String
  waiting : Option String
  terminated : Option (Nat × String)
  restartCount : Nat
deriving DecidableEq, Repr

/-- A pod snapshot: name, phase string, container statuses, and the names of
the declared `spec.containers` (the source reads `pod.spec.containers[0].name`
to fetch logs). -/
structure Pod where
  name : String
  phase : String
  containerStatuses : List ContainerStatus
  specContainers : List String
deriving DecidableEq, Repr

/-- One event record, as copied verbatim from the event API into the
`event_messages` dictionaries of the source. -/
structure EventRecord where
  type : String
  reason : String
  message : String
  count : Nat
  firstTimestamp : String
  lastTimestamp : String
deriving DecidableEq, Repr

/-- The issue dictionary built by `PodMonitor.check_pod_health` in
`src/monitor/pods.py` (the `KubernetesMonitor` variant adds a cluster field,
see `KIssue`). -/
structure Issue where
  ns : String
  resource_type : String
  resource_name : String
  issue_type : String
  severity : String
  description : String
  logs : String
  events : List EventRecord
  detected_at : String
deriving DecidableEq, Repr

deriving instance DecidableEq for Except

/-- Left-to-right scan for an occurrence of `pat` in the list. -/
def sub_search (pat : List Char) : List Char → Bool
  | [] => pat.isEmpty
  | c :: rest => pat.isPrefixOf (c :: rest) || sub_search pat rest

/-- Python substring test `pat in hay`. -/
def str_contains (hay pat : String) : Bool :=
  sub_search pat.data hay.data

/-- The entry a container status contributes to the `container_issues`
dictionary (`src/monitor/pods.py` lines 53-58): the waiting reason when
waiting, otherwise `Terminated(ExitCode:<code>)` when terminated with a
nonzero exit code.  Note the source never reads `terminated.reason`. -/
def issue_of (cs : ContainerStatus) : Option (String × String) :=
  match cs.waiting with
  | some r => some (cs.name, r)
  | none =>
    match cs.terminated with
    | some (code, _) =>
      if code ≠ 0 then some (cs.name, "Terminated(ExitCode:" ++ toString code ++ ")")
      else none
    | none => none

/-- Python dictionary assignment `d[k] = v`: overwrite in place when the key
exists (keeping its position, as Python dicts do), else append. -/
def dict_insert (d : List (String × String)) (k v : String) : List (String × String) :=
  if d.any (fun p => p.1 == k) then
    d.map (fun p => if p.1 == k then (k, v) else p)
  else d ++ [(k, v)]

/-- The `container_issues` dictionary of `check_pod_health`, built by
iterating the container statuses in order. -/
def container_issues (css : List ContainerStatus) : List (String × String) :=
  css.foldl
    (fun d cs =>
      match issue_of cs with
      | some (k, v) => dict_insert d k v
      | none => d)
    []

/-- `problematic_phases` of the source. -/
def problematic_phases : List String := ["Pending", "Failed", "Unknown"]

/-- `crash_loop_back_off`: some container issue reason equals
`CrashLoopBackOff`. -/
def crash_loop_back_off (ci : List (String × String)) : Bool :=
  ci.any (fun p => p.2 == "CrashLoopBackOff")

/-- `image_pull_back_off`: some container issue reason equals
`ImagePullBackOff`. -/
def image_pull_back_off (ci : List (String × String)) : Bool :=
  ci.any (fun p => p.2 == "ImagePullBackOff")

/-- `create_container_error`: some container issue reason equals
`CreateContainerError`. -/
def create_container_error (ci : List (String × String)) : Bool :=
  ci.any (fun p => p.2 == "CreateContainerError")

/-- `oom_killed`: some container issue reason contains `OOMKilled` as a
substring. -/
def oom_killed (ci : List (String × String)) : Bool :=
  ci.any (fun p => str_contains p.2 "OOMKilled")

/-- The gate of `check_pod_health` (lines 74-79 of `src/monitor/pods.py`):
the pod is flagged when its phase is problematic or contains `Error`, or one
of the four specific container conditions holds. -/
def pod_flagged (pod : Pod) : Bool :=
  let ci := container_issues pod.containerStatuses
  problematic_phases.contains pod.phase || str_contains pod.phase "Error" ||
    crash_loop_back_off ci || image_pull_back_off ci ||
    create_container_error ci || oom_killed ci

/-- The classification of a flagged pod (lines 110-130 of
`src/monitor/pods.py`, identical in `src/k8s/monitor.py`): issue type,
severity (always `High` on this branch) and description.  `none` when the
gate does not fire. -/
def classify_pod (pod : Pod) : Option (String × String × String) :=
  let ci := container_issues pod.containerStatuses
  if pod_flagged pod then
    if crash_loop_back_off ci then
      some ("CrashLoopBackOff", "High", "Pod is in CrashLoopBackOff state")
    else if image_pull_back_off ci then
      some ("ImagePullBackOff", "High", "Pod has ImagePullBackOff error")
    else if create_container_error ci then
      some ("CreateContainerError", "High", "Pod failed to create container")
    else if oom_killed ci then
      some ("OOMKilled", "High", "Pod was terminated due to out of memory")
    else
      match ci with
      | (c, r) :: _ =>
        some ("ContainerError", "High", "Container " ++ c ++ " has issue: " ++ r)
      | [] =>
        some ("PodStatusIssue", "High", "Pod is in " ++ pod.phase ++ " state")
  else none

/-- The collaborator environment of one namespace check: the pod list call,
the per-(pod, container) log fetch, the per-pod event listing (the source
filters server-side with `involvedObject.name=<pod>`), and the wall clock
used for `detected_at`.  Each fallible call is an `Except`; a Python
exception raised by a call is its `error` case. -/
structure NsEnv where
  pods : Except String (List Pod)
  logs : String → String → Except String String
  events : String → Except String (List EventRecord)
  now : String

/-- The log fetch of the source wrapped in its `try`/`except`: on failure the
placeholder `Could not get logs: <reason>` is substituted
(`src/monitor/pods.py` lines 81-90 and 151-159). -/
def wrapped_logs (env : NsEnv) (podName containerName : String) : String :=
  match env.logs podName containerName with
  | .ok l => l
  | .error e => "Could not get logs: " ++ e

/-- Logs fetched on the flagged-pod branch: the source indexes
`pod.spec.containers[0].name` inside the same `try`, so an empty container
list degrades to the placeholder through the caught `IndexError`. -/
def main_branch_logs (env : NsEnv) (pod : Pod) : String :=
  match pod.specContainers.head? with
  | some c => wrapped_logs env pod.name c
  | none => "Could not get logs: list index out of range"

/-- The restart loop of `src/monitor/pods.py` (lines 147-189): for each
container with `restart_count > 5`, fetch logs (wrapped) and events (not
wrapped: an event-API failure escapes as an error) and append a
`ContainerRestartIssue` of severity `Medium`. -/
def restart_issues (nsName : String) (env : NsEnv) (pod : Pod) :
    Except String (List Issue) :=
  pod.containerStatuses.foldlM
    (fun acc cs => do
      if cs.restartCount > 5 then
        let logsText := wrapped_logs env pod.name cs.name
        let evs ← env.events pod.name
        pure (acc ++ [{ ns := nsName, resource_type := "Pod",
                        resource_name := pod.name,
                        issue_type := "ContainerRestartIssue",
                        severity := "Medium",
                        description := "Container " ++ cs.name ++
                          " has restarted " ++ toString cs.restartCount ++ " times",
                        logs := logsText, events := evs,
                        detected_at := env.now }])
      else pure acc)
    []

/-- The loop body of `check_pod_health` for one pod: when the gate fires,
fetch evidence and emit the single classified issue, then continue to the
next pod; otherwise run the restart loop.  The event listing is not inside
any `try`, so its failure propagates. -/
def pod_issues (nsName : String) (env : NsEnv) (pod : Pod) :
    Except String (List Issue) :=
  match classify_pod pod with
  | some (t, sev, desc) => do
    let logsText := main_branch_logs env pod
    let evs ← env.events pod.name
    pure [{ ns := nsName, resource_type := "Pod", resource_name := pod.name,
            issue_type := t, severity := sev, description := desc,
            logs := logsText, events := evs, detected_at := env.now }]
  | none => restart_issues nsName env pod

/-- `PodMonitor.check_pod_health` (`src/monitor/pods.py`): iterate the listed
pods accumulating issues; any uncaught exception (the pod list call, or an
event listing inside the loop) reaches the outer `except` and the function
returns the empty list for the namespace. -/
def check_pod_health (nsName : String) (env : NsEnv) : List Issue :=
  match (do
      let pods ← env.pods
      pods.foldlM
        (fun acc p => do
          let li ← pod_issues nsName env p
          pure (acc ++ li))
        ([] : List Issue)) with
  | .ok l => l
  | .error _ => []

/-- The issue dictionary of `KubernetesMonitor.check_pod_health`
(`src/k8s/monitor.py`), which also carries the cluster name. -/
structure KIssue where
  cluster : String
  ns : String
  resource_type : String
  resource_name : String
  issue_type : String
  severity : String
  description : String
  logs : String
  events : List EventRecord
  detected_at : String
deriving DecidableEq, Repr

/-- The loop body of `KubernetesMonitor.check_pod_health` for one pod: same
classification, but on the restart branch the log fetch is NOT wrapped in a
`try` (lines 161-166 of `src/k8s/monitor.py`), so its failure propagates. -/
def km_pod_issues (clusterName nsName : String) (env : NsEnv) (pod : Pod) :
    Except String (List KIssue) :=
  match classify_pod pod with
  | some (t, sev, desc) => do
    let logsText := main_branch_logs env pod
    let evs ← env.events pod.name
    pure [{ cluster := clusterName, ns := nsName, resource_type := "Pod",
            resource_name := pod.name, issue_type := t, severity := sev,
            description := desc, logs := logsText, events := evs,
            detected_at := env.now }]
  | none =>
    pod.containerStatuses.foldlM
      (fun acc cs => do
        if cs.restartCount > 5 then
          let logsText ← env.logs pod.name cs.name
          let evs ← env.events pod.name
          pure (acc ++ [{ cluster := clusterName, ns := nsName,
                          resource_type := "Pod", resource_name := pod.name,
                          issue_type := "ContainerRestartIssue",
                          severity := "Medium",
                          description := "Container " ++ cs.name ++
                            " has restarted " ++ toString cs.restartCount ++ " times",
                          logs := logsText, events := evs,
                          detected_at := env.now }])
        else pure acc)
      []

/-- `KubernetesMonitor.check_pod_health` (`src/k8s/monitor.py` lines 32-202,
same in `src/main.py` for the lookup guard): the configured cluster map is
consulted first; an unknown cluster name returns the empty list before any
API handle is touched.  Otherwise the namespace is scanned as above, with
the outer `except` turning any escaped failure into the empty list. -/
def km_check_pod_health (clusters : List (String × NsEnv))
    (clusterName nsName : String) : List KIssue :=
  match clusters.lookup clusterName with
  | none => []
  | some env =>
    match (do
        let pods ← env.pods
        pods.foldlM
          (fun acc p => do
            let li ← km_pod_issues clusterName nsName env p
            pure (acc ++ li))
          ([] : List KIssue)) with
    | .ok l => l
    | .error _ => []

/-- Python `s.split(sep)` for a non-empty separator, on character lists, with
explicit fuel (`fuel ≥ s.length` suffices): scan left to right, at each
position either consume a separator occurrence and start a new chunk, or move
one character into the current chunk. -/
def pysplit (sep : List Char) : Nat → List Char → List (List Char)
  | _, [] => [[]]
  | 0, s => [s]
  | fuel + 1, c :: rest =>
    if sep.isPrefixOf (c :: rest) then
      [] :: pysplit sep fuel (List.drop sep.length (c :: rest))
    else
      match pysplit sep fuel rest with
      | [] => [[c]]
      | h :: t => (c :: h) :: t

/-- Python `s.split(sep)`. -/
def splitPy (sep s : List Char) : List (List Char) := pysplit sep s.length s

/-- Python `s.replace(pat, "")` for a non-empty pattern, with fuel:
remove non-overlapping occurrences left to right. -/
def removeAux (pat : List Char) : Nat → List Char → List Char
  | _, [] => []
  | 0, s => s
  | fuel + 1, c :: rest =>
    if pat.isPrefixOf (c :: rest) then
      removeAux pat fuel (List.drop pat.length (c :: rest))
    else c :: removeAux pat fuel rest

/-- Python `s.replace(pat, "")`. -/
def removeAll (pat s : List Char) : List Char := removeAux pat s.length s

/-- Python `s.strip()`: drop leading and trailing whitespace. -/
def trimL (s : List Char) : List Char :=
  ((s.dropWhile Char.isWhitespace).reverse.dropWhile Char.isWhitespace).reverse

/-- The literal marker `Recommendations:` that `ClaudeAnalyzer.analyze_issue`
splits on. -/
def recMarker : List Char := "Recommendations:".data

/-- The literal label `Diagnosis:` removed from the diagnosis part. -/
def diagLabel : List Char := "Diagnosis:".data

/-- The response parsing of `ClaudeAnalyzer.analyze_issue`
(`src/ai/claude.py` lines 94-101), on character lists:
`parts = response_text.split("Recommendations:")`; with two or more parts the
diagnosis is `parts[0].replace("Diagnosis:", "").strip()` and the
recommendations are `parts[1].strip()`; otherwise the whole text is the
diagnosis and the recommendations are the fixed sentinel. -/
def claude_parse (text : List Char) : List Char × List Char :=
  match splitPy recMarker text with
  | p0 :: p1 :: _ => (trimL (removeAll diagLabel p0), trimL p1)
  | _ => (text, "No specific recommendations provided".data)

/-- Outcome of the HTTP call made by `LLMProcessor.analyze_issue`: a response
with a status code and a payload (the extraction `result["content"][0]["text"]`
may itself fail, which the surrounding `except` catches), or an exception
raised during the call. -/
inductive CallOutcome where
  | response (status : Nat) (payload : Except String String)
  | exc (msg : String)
deriving DecidableEq

/-- Response parsing of `LLMProcessor.analyze_issue`
(`src/llm/processor.py` lines 87-109): lowercase the response, split on
`recommendations`; the diagnosis is what stands between the first and second
occurrence of `diagnosis`, if any, else the whole first part, stripped; the
recommendations are `recommendations` plus the first following chunk,
stripped.  Without the marker the raw response is the diagnosis and the
recommendations are empty. -/
def llm_parse (llm_response : String) : String × String :=
  let lowered := llm_response.data.map Char.toLower
  match splitPy "recommendations".data lowered with
  | p0 :: p1 :: _ =>
    let diagnosis :=
      match splitPy "diagnosis".data p0 with
      | _ :: d1 :: _ => trimL d1
      | _ => trimL p0
    (String.mk diagnosis, String.mk (trimL ("recommendations".data ++ p1)))
  | _ => (llm_response, "")

/-- `LLMProcessor.analyze_issue` (`src/llm/processor.py`), as a function of
the call outcome: a 200 response is parsed; a non-200 response returns the
degraded pair naming the status; any exception (including payload
extraction) returns the fixed degraded pair of the `except` handler. -/
def llm_analyze_issue (o : CallOutcome) : String × String :=
  match o with
  | .exc _ =>
    ("Error processing the issue with LLM", "Review manually or try again later.")
  | .response status payload =>
    if status == 200 then
      match payload with
      | .ok text => llm_parse text
      | .error _ =>
        ("Error processing the issue with LLM", "Review manually or try again later.")
    else
      ("Could not analyze the issue (Error " ++ toString status ++ ")",
       "Review logs and events manually.")

/-- Outcome of the Anthropic SDK call of `ClaudeAnalyzer.analyze_issue`. -/
inductive ClaudeOutcome where
  | ok (text : String)
  | exc (msg : String)
deriving DecidableEq

/-- `ClaudeAnalyzer.analyze_issue` (`src/ai/claude.py`), as a function of the
call outcome: parse the response text on success; on any exception return
the degraded diagnosis naming the error and a fixed recommendation. -/
def claude_analyze_issue (o : ClaudeOutcome) : String × String :=
  match o with
  | .ok text =>
    (String.mk (claude_parse text.data).1, String.mk (claude_parse text.data).2)
  | .exc m =>
    ("Error processing with Claude: " ++ m, "Please check the logs for details")

/-- The `events_data` block of the `LLMProcessor.analyze_issue` prompt
(`src/llm/processor.py` lines 36-39): one line per event, capped to the
first 5 events. -/
def events_data (evs : List EventRecord) : String :=
  (evs.take 5).foldl
    (fun acc e =>
      acc ++ "- " ++ e.type ++ ": " ++ e.reason ++ " - " ++ e.message ++ "\n")
    ""

/-- The `events_text` block of the `ClaudeAnalyzer.analyze_issue` prompt
(`src/ai/claude.py` lines 41-44): one line per event, with no cap. -/
def events_text (evs : List EventRecord) : String :=
  evs.foldl
    (fun acc e =>
      acc ++ "Type: " ++ e.type ++ ", Reason: " ++ e.reason ++
        ", Message: " ++ e.message ++ "\n")
    ""

/-- The prompt of `ClaudeAnalyzer.analyze_issue` (`src/ai/claude.py` lines
47-81), with the surrounding indentation whitespace of the Python f-string
condensed. -/
def claude_prompt (resourceType resourceName issueType description
    logsExcerpt : String) (evs : List EventRecord) : String :=
  "\nAs a Kubernetes expert, analyze this issue and provide a VERY CONCISE diagnosis and recommendations.\n\n" ++
  "Your response will be displayed in the terminal, so:\n" ++
  "1. Keep your diagnosis under 200 characters if possible\n" ++
  "2. Provide no more than 3 specific, actionable recommendations\n" ++
  "3. Use simple formatting\n4. Be direct and to the point\n\n" ++
  "ISSUE DETAILS:\n- Resource Type: " ++ resourceType ++
  "\n- Resource Name: " ++ resourceName ++
  "\n- Issue Type: " ++ issueType ++
  "\n- Description: " ++ description ++
  "\n\nLOGS:\n```\n" ++ logsExcerpt ++ "\n```\n\nEVENTS:\n```\n" ++
  events_text evs ++ "\n```\n\n" ++
  "Format your response exactly like this:\n" ++
  "Diagnosis: [2-3 sentences explaining the root cause]\n\n" ++
  "Recommendations:\n• [First recommendation]\n• [Second recommendation]\n" ++
  "• [Third recommendation]\n• [Fourth recommendation]\n• [Fifth recommendation]\n"

def exC1cex : Pod :=
  { name := "web-1", phase := "Pending",
    containerStatuses :=
      [{ name := "web", waiting := some "ContainerCreating",
         terminated := none, restartCount := 0 }],
    specContainers := ["web"] }

def exC1w : Pod :=
  { name := "lonely", phase := "Pending", containerStatuses := [],
    specContainers := [] }

def exEnvOk : NsEnv :=
  { pods := .ok [], logs := fun _ _ => .ok "log line",
    events := fun _ => .ok [], now := "t0" }

def exC2run : Pod :=
  { name := "app-1", phase := "Running",
    containerStatuses :=
      [{ name := "app", waiting := none,
         terminated := some (137, "OOMKilled"), restartCount := 0 }],
    specContainers := ["app"] }

def exC2fail : Pod := { exC2run with phase := "Failed" }

def exC4cex : Pod :=
  { name := "web-2", phase := "Running",
    containerStatuses :=
      [{ name := "web", waiting := some "SomeWeirdReason",
         terminated := none, restartCount := 0 }],
    specContainers := ["web"] }

def exC4w : Pod :=
  { name := "db-0", phase := "Failed",
    containerStatuses :=
      [{ name := "db", waiting := some "SomeOtherReason",
         terminated := none, restartCount := 0 }],
    specContainers := ["db"] }

def exC3pod : Pod :=
  { name := "crash-7", phase := "Running",
    containerStatuses :=
      [{ name := "main", waiting := some "CrashLoopBackOff",
         terminated := none, restartCount := 10 }],
    specContainers := ["main"] }

def exC3env : NsEnv :=
  { pods := .ok [exC3pod], logs := fun _ _ => .ok "boom",
    events := fun _ => .ok [], now := "t3" }

def exC5pod : Pod :=
  { name := "rr-1", phase := "Running",
    containerStatuses :=
      [{ name := "a", waiting := none, terminated := none, restartCount := 6 },
       { name := "b", waiting := none, terminated := none, restartCount := 6 }],
    specContainers := ["a", "b"] }

def exC5env : NsEnv :=
  { pods := .ok [exC5pod], logs := fun _ _ => .ok "L",
    events := fun _ => .ok [], now := "t5" }

def exC6pod : Pod :=
  { name := "crash-1", phase := "Running",
    containerStatuses :=
      [{ name := "c", waiting := some "CrashLoopBackOff",
         terminated := none, restartCount := 3 }],
    specContainers := ["c"] }

def exC6env : NsEnv :=
  { pods := .ok [exC6pod], logs := fun _ _ => .ok "some log",
    events := fun _ => .error "events api down", now := "t6" }

def exC6envFail : NsEnv :=
  { pods := .ok [exC6pod], logs := fun _ _ => .error "conn reset",
    events := fun _ => .ok [], now := "t6" }

def exC6envOkL : NsEnv :=
  { pods := .ok [exC6pod], logs := fun _ _ => .ok "real logs",
    events := fun _ => .ok [], now := "t6" }

def mk_event (r : String) : EventRecord :=
  { type := "Normal", reason := r, message := "m", count := 1,
    firstTimestamp := "a", lastTimestamp := "b" }

def evs_six : List EventRecord :=
  [mk_event "R1", mk_event "R2", mk_event "R3", mk_event "R4", mk_event "R5",
   mk_event "SixthReason"]

theorem issue_of_name (cs : ContainerStatus) (k v : String)
    (h : issue_of cs = some (k, v)) : k = cs.name := by
  unfold issue_of at h
  cases hw : cs.waiting with
  | some r => rw [hw] at h; simp at h; exact h.1.symm
  | none =>
    rw [hw] at h
    cases ht : cs.terminated with
    | some p =>
      rw [ht] at h
      by_cases hc : p.1 ≠ 0
      · simp [hc] at h; exact h.1.symm
      · simp at hc; simp [hc] at h
    | none => rw [ht] at h; simp at h

theorem container_issues_go (css : List ContainerStatus) (d : List (String × String))
    (hd : ∀ cs ∈ css, ∀ p ∈ d, p.1 ≠ cs.name)
    (hnd : (css.map ContainerStatus.name).Nodup) :
    css.foldl
      (fun d cs =>
        match issue_of cs with
        | some (k, v) => dict_insert d k v
        | none => d)
      d = d ++ css.filterMap issue_of := by
  induction css generalizing d with
  | nil => simp
  | cons cs rest ih =>
    simp only [List.foldl_cons, List.filterMap_cons]
    simp only [List.map_cons, List.nodup_cons] at hnd
    cases h : issue_of cs with
    | none =>
      rw [ih d (fun c hc p hp => hd c (List.mem_cons_of_mem cs hc) p hp) hnd.2]
    | some kv =>
      obtain ⟨k, v⟩ := kv
      dsimp only
      have hk : k = cs.name := issue_of_name cs k v h
      have hins : dict_insert d k v = d ++ [(k, v)] := by
        unfold dict_insert
        have hfalse : d.any (fun p => p.1 == k) = false := by
          rw [List.any_eq_false]
          intro p hp
          have hne := hd cs (List.mem_cons_self cs rest) p hp
          simp [hk, hne]
        simp [hfalse]
      rw [hins]
      rw [ih (d ++ [(k, v)]) ?_ hnd.2]
      · rw [List.append_assoc]
        simp
      · intro c hc p hp
        rcases List.mem_append.mp hp with hpd | hpk
        · exact hd c (List.mem_cons_of_mem cs hc) p hpd
        · have : p = (k, v) := by simpa using hpk
          subst this
          simp only [hk]
          intro hcontra
          exact hnd.1 (hcontra ▸ List.mem_map_of_mem ContainerStatus.name hc)

theorem container_issues_eq_filterMap (css : List ContainerStatus)
    (hnd : (css.map ContainerStatus.name).Nodup) :
    container_issues css = css.filterMap issue_of := by
  unfold container_issues
  rw [container_issues_go css [] (by simp) hnd]
  simp

theorem occ_of_prefix_flag {m s : List Char} (h : m.isPrefixOf s = true) :
    m <:+: s := by
  rcases List.isPrefixOf_iff_prefix.mp h with ⟨t, ht⟩
  exact ⟨[], t, by simpa using ht⟩

theorem occ_cons {m rest : List Char} (c : Char) (h : m <:+: rest) :
    m <:+: c :: rest := by
  rcases h with ⟨s, t, hst⟩
  exact ⟨c :: s, t, by simp [hst]⟩

theorem take_append_left2 (n : Nat) (a b : List Char) (h : n ≤ a.length) :
    (a ++ b).take n = a.take n := by
  rw [List.take_append_eq_append_take, Nat.sub_eq_zero_of_le h]
  simp

theorem prefix_of_append_eq {a b t mid : List Char}
    (h : a ++ t = b ++ mid) (hl : a.length ≤ b.length) : a <+: b := by
  have htake : a = b.take a.length := by
    have h1 : (a ++ t).take a.length = a := List.take_left a t
    rw [h] at h1
    rw [take_append_left2 _ b mid hl] at h1
    exact h1.symm
  have h2 : b.take a.length <+: b :=
    ⟨b.drop a.length, List.take_append_drop _ _⟩
  rwa [← htake] at h2

theorem marker_no_self_overlap :
    ∀ k, k < 16 → 0 < k → (recMarker.drop k).isPrefixOf recMarker = false := by
  decide

theorem recMarker_length : recMarker.length = 16 := by decide

theorem marker_no_cross (pre mid : List Char) (hne : pre ≠ [])
    (hocc : ¬ recMarker <:+: pre) :
    recMarker.isPrefixOf (pre ++ recMarker ++ mid) = false := by
  by_contra hb
  simp only [Bool.not_eq_false] at hb
  rcases List.isPrefixOf_iff_prefix.mp hb with ⟨t, ht⟩
  by_cases hlen : recMarker.length ≤ pre.length
  · have htake : recMarker = pre.take recMarker.length := by
      have h1 : (recMarker ++ t).take recMarker.length = recMarker :=
        List.take_left recMarker t
      rw [ht, List.append_assoc] at h1
      rw [take_append_left2 recMarker.length pre _ hlen] at h1
      exact h1.symm
    apply hocc
    refine ⟨[], pre.drop recMarker.length, ?_⟩
    simp only [List.nil_append]
    conv_rhs => rw [← List.take_append_drop recMarker.length pre]
    rw [← htake]
  · push_neg at hlen
    have hk1 : 0 < pre.length := List.length_pos.mpr hne
    have hpre_take : pre = recMarker.take pre.length := by
      have h1 : (pre ++ (recMarker ++ mid)).take pre.length = pre := by
        rw [take_append_left2 pre.length pre _ (le_refl _)]
        exact List.take_length pre
      rw [← List.append_assoc, ← ht] at h1
      rw [take_append_left2 pre.length recMarker t (le_of_lt hlen)] at h1
      exact h1.symm
    have hsplit : pre ++ recMarker.drop pre.length = recMarker := by
      conv_rhs => rw [← List.take_append_drop pre.length recMarker]
      rw [← hpre_take]
    have hcancel : recMarker.drop pre.length ++ t = recMarker ++ mid := by
      have hstep : pre ++ (recMarker.drop pre.length ++ t) =
          pre ++ (recMarker ++ mid) := by
        calc pre ++ (recMarker.drop pre.length ++ t)
            = (pre ++ recMarker.drop pre.length) ++ t := by
              rw [List.append_assoc]
          _ = recMarker ++ t := by rw [hsplit]
          _ = pre ++ recMarker ++ mid := ht
          _ = pre ++ (recMarker ++ mid) := by rw [List.append_assoc]
      exact List.append_cancel_left hstep
    have hdroplen : (recMarker.drop pre.length).length ≤ recMarker.length := by
      rw [List.length_drop]
      omega
    have hbadp : recMarker.drop pre.length <+: recMarker :=
      prefix_of_append_eq hcancel hdroplen
    have hbad : (recMarker.drop pre.length).isPrefixOf recMarker = true :=
      List.isPrefixOf_iff_prefix.mpr hbadp
    have hforbid := marker_no_self_overlap pre.length
      (by rw [← recMarker_length]; exact hlen) hk1
    rw [hforbid] at hbad
    exact Bool.false_ne_true hbad

theorem pysplit_no_occ : ∀ (fuel : Nat) (t : List Char), t.length ≤ fuel →
    ¬ recMarker <:+: t → pysplit recMarker fuel t = [t] := by
  intro fuel
  induction fuel with
  | zero =>
    intro t ht hocc
    have ht0 : t = [] := List.eq_nil_of_length_eq_zero (Nat.le_zero.mp ht)
    subst ht0
    rfl
  | succ f ih =>
    intro t ht hocc
    cases t with
    | nil => rfl
    | cons c rest =>
      have hpre : recMarker.isPrefixOf (c :: rest) = false := by
        by_contra hb
        simp only [Bool.not_eq_false] at hb
        exact hocc (occ_of_prefix_flag hb)
      have hlen : rest.length ≤ f := by
        simp only [List.length_cons] at ht
        omega
      have hocc2 : ¬ recMarker <:+: rest := fun h2 => hocc (occ_cons c h2)
      simp only [pysplit, hpre, Bool.false_eq_true, if_false]
      rw [ih rest hlen hocc2]

theorem pysplit_first : ∀ (pre : List Char) (fuel : Nat) (mid : List Char),
    (pre ++ recMarker ++ mid).length ≤ fuel →
    ¬ recMarker <:+: pre → ¬ recMarker <:+: mid →
    pysplit recMarker fuel (pre ++ recMarker ++ mid) = [pre, mid] := by
  intro pre
  induction pre with
  | nil =>
    intro fuel mid hfuel hp hm
    simp only [List.nil_append] at hfuel ⊢
    cases fuel with
    | zero =>
      exfalso
      rw [List.length_append, recMarker_length] at hfuel
      omega
    | succ f =>
      cases hsm : recMarker ++ mid with
      | nil =>
        exfalso
        have := congrArg List.length hsm
        rw [List.length_append, recMarker_length] at this
        simp at this
      | cons c rest =>
        rw [← hsm]
        have hpre : recMarker.isPrefixOf (recMarker ++ mid) = true :=
          List.isPrefixOf_iff_prefix.mpr ⟨mid, rfl⟩
        rw [hsm] at hpre ⊢
        simp only [pysplit, hpre, if_true]
        rw [← hsm, List.drop_left recMarker mid]
        have hflen : mid.length ≤ f := by
          have := congrArg List.length hsm
          rw [List.length_append, recMarker_length] at this
          simp only [List.length_cons] at this hfuel
          rw [List.length_append, recMarker_length] at hfuel
          omega
        rw [pysplit_no_occ f mid hflen hm]
  | cons c pre2 ih =>
    intro fuel mid hfuel hp hm
    cases fuel with
    | zero =>
      exfalso
      simp only [List.cons_append, List.length_cons] at hfuel
      omega
    | succ f =>
      have hne : (c :: pre2) ≠ ([] : List Char) := by simp
      have hcross : recMarker.isPrefixOf ((c :: pre2) ++ recMarker ++ mid) = false :=
        marker_no_cross (c :: pre2) mid hne hp
      have hocc2 : ¬ recMarker <:+: pre2 := fun h2 => hp (occ_cons c h2)
      have hflen : (pre2 ++ recMarker ++ mid).length ≤ f := by
        simp only [List.cons_append, List.length_cons] at hfuel
        simpa using hfuel
      simp only [List.cons_append] at hcross ⊢
      simp only [pysplit, hcross, Bool.false_eq_true, if_false]
      rw [ih f mid hflen hocc2 hm]

theorem lookup_eq_none_of_not_mem (clusters : List (String × NsEnv)) (name : String)
    (h : name ∉ clusters.map Prod.fst) : clusters.lookup name = none := by
  induction clusters with
  | nil => rfl
  | cons p rest ih =>
    simp only [List.map_cons, List.mem_cons, not_or] at h
    simp only [List.lookup]
    have hb : (name == p.1) = false := by
      simp [h.1]
    rw [hb]
    exact ih h.2

/-- C1 (counterexample): a Pending pod whose only container carries the
unrelated waiting reason `ContainerCreating` is classified `ContainerError`,
not `PodStatusIssue` as the claim states. -/
theorem claim_c1_counterexample :
    classify_pod exC1cex =
      some ("ContainerError", "High", "Container web has issue: ContainerCreating") ∧
    (classify_pod exC1cex).map (fun r => r.1) ≠ some "PodStatusIssue" := by decide

/-- C1 (amended): when the phase condition of rule 5 holds and no container
has any recorded waiting or terminated-nonzero reason, the pod is classified
`PodStatusIssue` with severity `High` and a description naming the phase. -/
theorem claim_c1_amended (pod : Pod)
    (hphase : pod.phase ∈ problematic_phases ∨ str_contains pod.phase "Error" = true)
    (hci : container_issues pod.containerStatuses = []) :
    classify_pod pod =
      some ("PodStatusIssue", "High", "Pod is in " ++ pod.phase ++ " state") := by
  have hgate : pod_flagged pod = true := by
    unfold pod_flagged
    rcases hphase with hm | hs
    · simp
      tauto
    · simp [hs]
  unfold classify_pod
  simp [hci, hgate, crash_loop_back_off, image_pull_back_off,
        create_container_error, oom_killed]

/-- Witness for `claim_c1_amended` at a concrete Pending pod. -/
theorem claim_c1_witness :
    classify_pod exC1w = some ("PodStatusIssue", "High", "Pod is in Pending state") := by
  rw [claim_c1_amended exC1w (Or.inl (by decide)) (by decide)]
  decide

/-- C2 (code-bug evidence): a container terminated with reason `OOMKilled`
(exit code 137) is never classified `OOMKilled`, because the source records
terminated containers as `Terminated(ExitCode:<code>)` and discards
`terminated.reason`.  With phase `Running` the pod is not flagged at all and
detection emits nothing; with phase `Failed` it is classified
`ContainerError` instead of `OOMKilled`. -/
theorem claim_c2_eval :
    classify_pod exC2run = none ∧
    pod_issues "default" exEnvOk exC2run = .ok [] ∧
    classify_pod exC2fail =
      some ("ContainerError", "High", "Container app has issue: Terminated(ExitCode:137)") := by
  decide

/-- C3: a pod snapshot with a container in waiting reason `CrashLoopBackOff`
and restart count 10 yields exactly one issue, of type `CrashLoopBackOff`
with severity `High`; the restart loop is never reached, so no
`ContainerRestartIssue` is emitted for the pod. -/
theorem claim_c3 (nsName : String) (env : NsEnv) (pod : Pod) (cs : ContainerStatus)
    (hm : cs ∈ pod.containerStatuses)
    (hw : cs.waiting = some "CrashLoopBackOff")
    (hr : cs.restartCount = 10)
    (hnd : (pod.containerStatuses.map ContainerStatus.name).Nodup)
    (evs : List EventRecord) (hev : env.events pod.name = .ok evs) :
    pod_issues nsName env pod =
      .ok [{ ns := nsName, resource_type := "Pod", resource_name := pod.name,
             issue_type := "CrashLoopBackOff", severity := "High",
             description := "Pod is in CrashLoopBackOff state",
             logs := main_branch_logs env pod, events := evs,
             detected_at := env.now }] := by
  have hcrash : crash_loop_back_off (container_issues pod.containerStatuses) = true := by
    have hmem : (cs.name, "CrashLoopBackOff") ∈ container_issues pod.containerStatuses := by
      rw [container_issues_eq_filterMap _ hnd]
      exact List.mem_filterMap.mpr ⟨cs, hm, by simp [issue_of, hw]⟩
    unfold crash_loop_back_off
    rw [List.any_eq_true]
    exact ⟨_, hmem, by simp⟩
  have hclass : classify_pod pod =
      some ("CrashLoopBackOff", "High", "Pod is in CrashLoopBackOff state") := by
    unfold classify_pod pod_flagged
    simp [hcrash]
  unfold pod_issues
  rw [hclass, show (env.events pod.name) = Except.ok evs from hev]
  rfl

/-- Witness for `claim_c3` at a concrete crash-looping pod. -/
theorem claim_c3_witness :
    pod_issues "default" exC3env exC3pod =
      .ok [{ ns := "default", resource_type := "Pod", resource_name := "crash-7",
             issue_type := "CrashLoopBackOff", severity := "High",
             description := "Pod is in CrashLoopBackOff state",
             logs := "boom", events := [], detected_at := "t3" }] := by
  rw [claim_c3 "default" exC3env exC3pod
        { name := "main", waiting := some "CrashLoopBackOff",
          terminated := none, restartCount := 10 }
        (by decide) rfl rfl (by decide) [] rfl]
  decide

/-- C4 (counterexample): with phase `Running` and a container waiting for a
reason outside rules 1-4, the gate does not fire: classification yields
nothing and detection emits no issue, contrary to the claimed
`ContainerError`. -/
theorem claim_c4_counterexample :
    classify_pod exC4cex = none ∧
    pod_issues "default" exEnvOk exC4cex = .ok [] := by decide

/-- C4 (amended): `ContainerError` is emitted only when the phase condition
of rule 5 also holds; then, with no rule 1-4 reason present, the issue names
the first container (in declared order) carrying a waiting or
terminated-nonzero reason. -/
theorem claim_c4_amended (pod : Pod) (c r : String) (rest : List (String × String))
    (hnd : (pod.containerStatuses.map ContainerStatus.name).Nodup)
    (hphase : pod.phase ∈ problematic_phases ∨ str_contains pod.phase "Error" = true)
    (hfm : pod.containerStatuses.filterMap issue_of = (c, r) :: rest)
    (hother : ∀ p ∈ pod.containerStatuses.filterMap issue_of,
      p.2 ≠ "CrashLoopBackOff" ∧ p.2 ≠ "ImagePullBackOff" ∧
      p.2 ≠ "CreateContainerError" ∧ str_contains p.2 "OOMKilled" = false) :
    classify_pod pod =
      some ("ContainerError", "High", "Container " ++ c ++ " has issue: " ++ r) := by
  have hci : container_issues pod.containerStatuses = (c, r) :: rest :=
    (container_issues_eq_filterMap _ hnd).trans hfm
  have hcrash : crash_loop_back_off ((c, r) :: rest) = false := by
    unfold crash_loop_back_off
    rw [List.any_eq_false]
    intro p hp
    rw [← hfm] at hp
    simp [(hother p hp).1]
  have himage : image_pull_back_off ((c, r) :: rest) = false := by
    unfold image_pull_back_off
    rw [List.any_eq_false]
    intro p hp
    rw [← hfm] at hp
    simp [(hother p hp).2.1]
  have hcreate : create_container_error ((c, r) :: rest) = false := by
    unfold create_container_error
    rw [List.any_eq_false]
    intro p hp
    rw [← hfm] at hp
    simp [(hother p hp).2.2.1]
  have hoom : oom_killed ((c, r) :: rest) = false := by
    unfold oom_killed
    rw [List.any_eq_false]
    intro p hp
    rw [← hfm] at hp
    simp [(hother p hp).2.2.2]
  have hgate : pod_flagged pod = true := by
    unfold pod_flagged
    rcases hphase with hm | hs
    · simp
      tauto
    · simp [hs]
  unfold classify_pod
  simp [hgate, hci, hcrash, himage, hcreate, hoom]

/-- Witness for `claim_c4_amended` at a concrete Failed pod. -/
theorem claim_c4_witness :
    classify_pod exC4w =
      some ("ContainerError", "High", "Container db has issue: SomeOtherReason") := by
  rw [claim_c4_amended exC4w "db" "SomeOtherReason" [] (by decide)
        (Or.inl (by decide)) (by decide) (by decide)]
  decide

/-- C5: a Running pod with two containers, neither waiting nor terminated,
each with restart count 6, yields exactly two `ContainerRestartIssue`
records of severity `Medium`, one per container. -/
theorem claim_c5 (nsName : String) (env : NsEnv) (pod : Pod) (c1 c2 : ContainerStatus)
    (hcss : pod.containerStatuses = [c1, c2])
    (hphase : pod.phase = "Running")
    (h1w : c1.waiting = none) (h1t : c1.terminated = none) (h1r : c1.restartCount = 6)
    (h2w : c2.waiting = none) (h2t : c2.terminated = none) (h2r : c2.restartCount = 6)
    (evs : List EventRecord) (hev : env.events pod.name = .ok evs) :
    pod_issues nsName env pod =
      .ok [{ ns := nsName, resource_type := "Pod", resource_name := pod.name,
             issue_type := "ContainerRestartIssue", severity := "Medium",
             description := "Container " ++ c1.name ++ " has restarted " ++
               toString (6 : Nat) ++ " times",
             logs := wrapped_logs env pod.name c1.name, events := evs,
             detected_at := env.now },
           { ns := nsName, resource_type := "Pod", resource_name := pod.name,
             issue_type := "ContainerRestartIssue", severity := "Medium",
             description := "Container " ++ c2.name ++ " has restarted " ++
               toString (6 : Nat) ++ " times",
             logs := wrapped_logs env pod.name c2.name, events := evs,
             detected_at := env.now }] := by
  have hci : container_issues pod.containerStatuses = [] := by
    rw [hcss]
    simp [container_issues, issue_of, h1w, h1t, h2w, h2t]
  have hflag : pod_flagged pod = false := by
    unfold pod_flagged
    rw [hci, hphase]
    decide
  have hclass : classify_pod pod = none := by
    unfold classify_pod
    rw [hflag]
    simp
  unfold pod_issues
  rw [hclass]
  unfold restart_issues
  rw [hcss]
  simp only [List.foldlM, h1r, h2r, hev]
  norm_num
  rfl

/-- Witness for `claim_c5` at a concrete restart-only pod. -/
theorem claim_c5_witness :
    pod_issues "default" exC5env exC5pod =
      .ok [{ ns := "default", resource_type := "Pod", resource_name := "rr-1",
             issue_type := "ContainerRestartIssue", severity := "Medium",
             description := "Container a has restarted 6 times",
             logs := "L", events := [], detected_at := "t5" },
           { ns := "default", resource_type := "Pod", resource_name := "rr-1",
             issue_type := "ContainerRestartIssue", severity := "Medium",
             description := "Container b has restarted 6 times",
             logs := "L", events := [], detected_at := "t5" }] := by
  rw [claim_c5 "default" exC5env exC5pod
        { name := "a", waiting := none, terminated := none, restartCount := 6 }
        { name := "b", waiting := none, terminated := none, restartCount := 6 }
        rfl rfl rfl rfl rfl rfl rfl rfl [] rfl]
  decide

/-- C6 (counterexample): a failing events fetch DOES suppress the issue — it
escapes to the outer handler and the whole namespace check returns the empty
list, although the pod is flagged `CrashLoopBackOff`. -/
theorem claim_c6_counterexample :
    classify_pod exC6pod =
      some ("CrashLoopBackOff", "High", "Pod is in CrashLoopBackOff state") ∧
    exC6env.pods = .ok [exC6pod] ∧
    check_pod_health "default" exC6env = [] := by decide

/-- C6 (amended): for a flagged pod, a failed log fetch does not suppress the
issue: it is emitted with the same type and severity as under a successful
log fetch, and its `logs` field holds the non-empty placeholder
`Could not get logs: <reason>`.  (An events-fetch failure, by contrast,
aborts the namespace scan; see the counterexample.) -/
theorem claim_c6_amended (nsName : String) (env env2 : NsEnv) (pod : Pod)
    (t sev desc : String) (hclass : classify_pod pod = some (t, sev, desc))
    (c0 : String) (hc0 : pod.specContainers.head? = some c0)
    (e : String) (hlog : env.logs pod.name c0 = .error e)
    (l : String) (hlog2 : env2.logs pod.name c0 = .ok l)
    (evs : List EventRecord) (hev : env.events pod.name = .ok evs)
    (hev2 : env2.events pod.name = .ok evs) (hnow : env2.now = env.now) :
    pod_issues nsName env pod =
      .ok [{ ns := nsName, resource_type := "Pod", resource_name := pod.name,
             issue_type := t, severity := sev, description := desc,
             logs := "Could not get logs: " ++ e, events := evs,
             detected_at := env.now }] ∧
    pod_issues nsName env2 pod =
      .ok [{ ns := nsName, resource_type := "Pod", resource_name := pod.name,
             issue_type := t, severity := sev, description := desc,
             logs := l, events := evs, detected_at := env.now }] ∧
    "Could not get logs: " ++ e ≠ "" := by
  refine ⟨?_, ?_, ?_⟩
  · simp only [pod_issues, hclass, main_branch_logs, hc0, wrapped_logs, hlog, hev]
    rfl
  · simp only [pod_issues, hclass, main_branch_logs, hc0, wrapped_logs, hlog2, hev2, hnow]
    rfl
  · intro h
    have hlen : "Could not get logs: ".length + e.length = ("" : String).length := by
      have hc := congrArg String.length h
      rwa [String.length_append] at hc
    rw [show ("" : String).length = 0 from rfl,
        show "Could not get logs: ".length = 20 from rfl] at hlen
    omega

/-- Witness for `claim_c6_amended` at a concrete flagged pod whose log fetch
fails. -/
theorem claim_c6_witness :
    pod_issues "default" exC6envFail exC6pod =
      .ok [{ ns := "default", resource_type := "Pod", resource_name := "crash-1",
             issue_type := "CrashLoopBackOff", severity := "High",
             description := "Pod is in CrashLoopBackOff state",
             logs := "Could not get logs: conn reset", events := [],
             detected_at := "t6" }] ∧
    pod_issues "default" exC6envOkL exC6pod =
      .ok [{ ns := "default", resource_type := "Pod", resource_name := "crash-1",
             issue_type := "CrashLoopBackOff", severity := "High",
             description := "Pod is in CrashLoopBackOff state",
             logs := "real logs", events := [], detected_at := "t6" }] ∧
    ("Could not get logs: " ++ "conn reset" : String) ≠ "" := by
  have h := claim_c6_amended "default" exC6envFail exC6envOkL exC6pod
    "CrashLoopBackOff" "High" "Pod is in CrashLoopBackOff state" (by decide)
    "c" rfl "conn reset" rfl "real logs" rfl [] rfl rfl rfl
  refine ⟨?_, ?_, h.2.2⟩
  · rw [h.1]
    decide
  · rw [h.2.1]
    decide

/-- C7: the analysis step never escapes to its caller; on every failing
outcome (an exception, a non-200 status, or a 200 response whose payload
extraction fails) `LLMProcessor.analyze_issue` returns one of its two
degraded pairs, whose recommendations instruct manual review, and
`ClaudeAnalyzer.analyze_issue` on an exception returns its degraded pair. -/
theorem claim_c7 (o : CallOutcome) (m : String)
    (hfail : ∀ text : String, o ≠ .response 200 (.ok text)) :
    (llm_analyze_issue o =
       ("Error processing the issue with LLM", "Review manually or try again later.") ∨
     ∃ status, status ≠ 200 ∧
       llm_analyze_issue o =
         ("Could not analyze the issue (Error " ++ toString status ++ ")",
          "Review logs and events manually.")) ∧
    claude_analyze_issue (.exc m) =
      ("Error processing with Claude: " ++ m, "Please check the logs for details") := by
  constructor
  · cases o with
    | exc msg => exact Or.inl rfl
    | response status payload =>
      by_cases hs : status = 200
      · subst hs
        cases payload with
        | ok text => exact absurd rfl (hfail text)
        | error msg => exact Or.inl (by simp [llm_analyze_issue])
      · refine Or.inr ⟨status, hs, ?_⟩
        simp [llm_analyze_issue, hs]
  · rfl

/-- Witness for `claim_c7` at a concrete non-200 outcome. -/
theorem claim_c7_witness :
    (llm_analyze_issue (.response 500 (.error "server error")) =
       ("Error processing the issue with LLM", "Review manually or try again later.") ∨
     ∃ status, status ≠ 200 ∧
       llm_analyze_issue (.response 500 (.error "server error")) =
         ("Could not analyze the issue (Error " ++ toString status ++ ")",
          "Review logs and events manually.")) ∧
    claude_analyze_issue (.exc "timeout") =
      ("Error processing with Claude: " ++ "timeout", "Please check the logs for details") :=
  claim_c7 (.response 500 (.error "server error")) "timeout"
    (fun text h => by simp at h)

/-- C8 (counterexample): on a response holding two `Recommendations:`
markers and two `Diagnosis:` labels, the parser returns the chunk between
the two markers (stripped) as recommendations and removes every
`Diagnosis:` occurrence, not the claimed before/after-the-marker pair. -/
theorem claim_c8_counterexample :
    claude_parse
        ("Diagnosis: A Diagnosis: B\nRecommendations:\nr1\nRecommendations: r2\n".data) =
      ("A  B".data, "r1".data) ∧
    claude_parse
        ("Diagnosis: A Diagnosis: B\nRecommendations:\nr1\nRecommendations: r2\n".data) ≠
      (" A Diagnosis: B\n".data, "\nr1\nRecommendations: r2\n".data) := by decide

/-- C8 (amended): splitting is on every occurrence of `Recommendations:` —
when the response is `pre ++ "Recommendations:" ++ mid` with no further
marker occurrence inside `pre` or `mid`, the diagnosis is `pre` with every
occurrence of `Diagnosis:` removed and whitespace stripped, and the
recommendations are `mid` stripped (with more occurrences, only the chunk
before the second marker survives); without the marker, the whole response
is the diagnosis and the recommendations are the sentinel. -/
theorem claim_c8_amended (pre mid t : List Char)
    (h1 : ¬ recMarker <:+: pre) (h2 : ¬ recMarker <:+: mid)
    (h3 : ¬ recMarker <:+: t) :
    claude_parse (pre ++ recMarker ++ mid) =
      (trimL (removeAll diagLabel pre), trimL mid) ∧
    claude_parse t = (t, "No specific recommendations provided".data) := by
  constructor
  · unfold claude_parse splitPy
    rw [pysplit_first pre _ mid (le_refl _) h1 h2]
  · unfold claude_parse splitPy
    rw [pysplit_no_occ _ t (le_refl _) h3]

/-- Witness for `claim_c8_amended` at the worked example of the spec and at
a marker-free response. -/
theorem claim_c8_witness :
    claude_parse ("Diagnosis: X\n\nRecommendations:\n• A\n• B".data) =
      ("X".data, "• A\n• B".data) ∧
    claude_parse ("plain text".data) =
      ("plain text".data, "No specific recommendations provided".data) := by
  have h := claim_c8_amended ("Diagnosis: X\n\n".data) ("\n• A\n• B".data)
    ("plain text".data) (by decide) (by decide) (by decide)
  constructor
  · have he : ("Diagnosis: X\n\nRecommendations:\n• A\n• B".data) =
        "Diagnosis: X\n\n".data ++ recMarker ++ "\n• A\n• B".data := by decide
    rw [he, h.1]
    decide
  · exact h.2

set_option maxRecDepth 20000 in
/-- C9 (counterexample): the `ClaudeAnalyzer` prompt contains the text of an
event beyond the fifth — its EVENTS block renders every event of the
issue. -/
theorem claim_c9_counterexample :
    str_contains (claude_prompt "Pod" "p" "CrashLoopBackOff" "d" "" evs_six)
      "SixthReason" = true ∧
    events_text evs_six ≠ events_text (evs_six.take 5) := by decide

/-- C9 (amended): the `Related events` block of the `LLMProcessor` prompt
depends only on the first 5 events of the issue. -/
theorem claim_c9_amended (evs evs2 : List EventRecord)
    (h : evs.take 5 = evs2.take 5) :
    events_data evs = events_data evs2 := by
  unfold events_data
  rw [h]

/-- Witness for `claim_c9_amended`: two event lists agreeing on their first
five entries, differing in the sixth, produce the same events block. -/
theorem claim_c9_witness :
    events_data evs_six = events_data (evs_six.take 5) :=
  claim_c9_amended evs_six (evs_six.take 5) (by decide)

/-- C10: for a cluster name absent from the configured cluster map,
`KubernetesMonitor.check_pod_health` returns the empty list.  The result
holds for every environment stored in the map, so no API handle is ever
consulted, and the function is total, so nothing is raised. -/
theorem claim_c10 (clusters : List (String × NsEnv)) (clusterName nsName : String)
    (h : clusterName ∉ clusters.map Prod.fst) :
    km_check_pod_health clusters clusterName nsName = [] := by
  unfold km_check_pod_health
  rw [lookup_eq_none_of_not_mem clusters clusterName h]

/-- Witness for `claim_c10` at a concrete one-entry cluster map. -/
theorem claim_c10_witness :
    km_check_pod_health [("dev", exEnvOk)] "production" "default" = [] :=
  claim_c10 [("dev", exEnvOk)] "production" "default" (by decide)
